import Mathlib

/-!
Shallow embedding of the pushover client (github.com/AlekSi/pushover).

The repository contains a message/glance encoder (`makeData`,
`makeGlanceData`), a response classifier inside `Client.Send`, the typed
errors `TemporaryError` and `FatalError` (both implementing the Go
`net.Error` interface), and the retry loop `Client.SendWithRetries`.

Modelling decisions:
* Go `url.Values` with its `Set` method is modelled as the finite map
  `Values := String → Option String`; `Set` overwrites the binding of a
  key.  `Encode` only percent-encodes and sorts, so key presence and key
  values are faithfully represented at this level.
* `time.Time` (only tested via `IsZero` and read via `Unix()`) is
  modelled as `Option Int`: `none` is the zero time, `some u` a time
  whose `Unix()` is `u`.
* The JSON parse performed inside `Client.Send`
  (`json.Unmarshal` followed by the type assertion
  `m["status"].(float64)`) is modelled by its outcome
  `parsedStatus : Option Rat`: `none` when `Unmarshal` fails or the
  `status` field is absent or not a number (`jsonOk = false` in the
  source), `some x` when the field holds the number `x`.  JSON numbers
  are modelled as rationals.
* The network side of `Client.Send` is modelled by a `TransportOutcome`
  describing what the Go standard library calls returned.
* `time.Sleep` and the loop of `SendWithRetries` are modelled by a
  fuel-indexed interpreter that also counts attempts and sleeps.
* Go integer division truncates towards zero, which is `Int.div`.
-/

/-- Message priority constant from the source. -/
def LowestPriority : Int := -2

/-- Message priority constant from the source. -/
def LowPriority : Int := -1

/-- Message priority constant from the source. -/
def NormalPriority : Int := 0

/-- Message priority constant from the source. -/
def HighPriority : Int := 1

/-- Message priority constant from the source. -/
def EmergencyPriority : Int := 2

/-- Go struct `Message` from client.go.  `Timestamp` is `none` for the
zero `time.Time` and `some u` for a time with Unix seconds `u`. -/
structure Message where
  User : String
  Message : String
  Devices : List String
  Title : String
  URL : String
  URLTitle : String
  Priority : Int
  Sound : String
  Timestamp : Option Int
  HTML : Bool
  Monospace : Bool
  Retry : Int
  Expire : Int
  Callback : String
deriving DecidableEq

/-- Go struct `Client` from the first client.go variant.  The
`HTTPClient` field is an external transport handle and does not
influence the encoded data, so only the token is modelled. -/
structure Client where
  ApplicationToken : String
deriving DecidableEq

/-- Go struct `TemporaryError` from error.go. -/
structure TemporaryError where
  StatusCode : Int
  Message : String
deriving DecidableEq

/-- Go struct `FatalError` from error.go. -/
structure FatalError where
  StatusCode : Int
  Message : String
deriving DecidableEq

/-- Method `(*TemporaryError).Temporary` from error.go. -/
def TemporaryError.Temporary (_ : TemporaryError) : Bool := true

/-- Method `(*TemporaryError).Timeout` from error.go. -/
def TemporaryError.Timeout (_ : TemporaryError) : Bool := false

/-- Method `(*FatalError).Temporary` from error.go. -/
def FatalError.Temporary (_ : FatalError) : Bool := false

/-- Method `(*FatalError).Timeout` from error.go. -/
def FatalError.Timeout (_ : FatalError) : Bool := false

/-- The `error` value returned by `Client.Send`: `nil` (success), a
`*FatalError`, or a `*TemporaryError`. -/
inductive SendResult where
  | success
  | fatal (e : FatalError)
  | temporary (e : TemporaryError)
deriving DecidableEq

/-- Whether the type assertion `err.(net.Error)` in `SendWithRetries`
succeeds: a `nil` error is not a `net.Error`; both `*TemporaryError`
and `*FatalError` implement `net.Error` (checked in error.go). -/
def SendResult.isNetError : SendResult → Bool
  | .success => false
  | .fatal _ => true
  | .temporary _ => true

/-- The value of `e.Temporary()` for the `net.Error` `e` obtained from
the type assertion (meaningful when `isNetError` holds). -/
def SendResult.netTemporary : SendResult → Bool
  | .success => false
  | .fatal e => e.Temporary
  | .temporary e => e.Temporary

/-- Response classification from the body of `Client.Send`
(client.go lines 159 to 176).  `statusCode` is `resp.StatusCode`,
`parsedStatus` the outcome of the JSON parse (see the module comment),
`body` the response bytes as a string. -/
def classify (statusCode : Int) (parsedStatus : Option Rat) (body : String) :
    SendResult :=
  let jsonOk := parsedStatus.isSome
  let status := parsedStatus.getD 0
  if statusCode = 200 ∧ jsonOk = true ∧ status = 1 then
    .success
  else if statusCode.tdiv 100 = 4 ∨ (jsonOk = true ∧ status = 0) then
    .fatal ⟨statusCode, body⟩
  else
    .temporary ⟨statusCode, body⟩

/-- The classifier exactly as §4.3 of the specification words it:
Success iff status code 200 and the parsed status field is present and
equals 1; otherwise Fatal iff the hundreds digit of the status code is
4 or the parsed status field is present and equals 0; otherwise
Temporary.  Written from the specification for comparison with
`classify`, which is written from the source. -/
def classifySpec (statusCode : Int) (parsedStatus : Option Rat) (body : String) :
    SendResult :=
  if statusCode = 200 ∧ parsedStatus = some 1 then
    .success
  else if statusCode.tdiv 100 = 4 ∨ parsedStatus = some 0 then
    .fatal ⟨statusCode, body⟩
  else
    .temporary ⟨statusCode, body⟩

/-- What the Go standard library calls inside `Client.Send` did:
request construction failed, `Do` failed, reading the body failed, or a
response with a status code and a body was obtained (together with the
outcome of the JSON parse of that body). -/
inductive TransportOutcome where
  | newRequestFailure (errMsg : String)
  | doFailure (errMsg : String)
  | readFailure (statusCode : Int) (errMsg : String)
  | response (statusCode : Int) (body : String) (parsedStatus : Option Rat)
deriving DecidableEq

/-- `Client.Send` (client.go lines 138 to 177) as a function of the
transport outcome: construction failure returns a fatal error with
status code -1, transmission failure a temporary error with status
code -1, body read failure a temporary error with the status code of
the response, and a full response is classified. -/
def Send : TransportOutcome → SendResult
  | .newRequestFailure msg => .fatal ⟨-1, msg⟩
  | .doFailure msg => .temporary ⟨-1, msg⟩
  | .readFailure sc msg => .temporary ⟨sc, msg⟩
  | .response sc body ps => classify sc ps body

/-- Result of running the `SendWithRetries` loop with bounded fuel. -/
inductive RunResult where
  | returned (err : SendResult) (attemptsMade : Nat) (delays : Nat)
  | outOfFuel
deriving DecidableEq

/-- The loop of `Client.SendWithRetries` (client.go lines 183 to 198).
`attempts n` is the result of the `(n+1)`-st call to `c.Send`;
`i` is the number of attempts already made (the Go counter `i` at the
top of the loop); `sleeps` counts executed `time.Sleep` calls.  The
loop returns `err` when the type assertion to `net.Error` fails or the
error is not temporary, or when `maxRetries > 0` and the incremented
counter reaches `maxRetries`; otherwise it sleeps and loops. -/
def sendWithRetriesGo (attempts : Nat → SendResult) (maxRetries : Int) :
    Nat → Nat → Nat → RunResult
  | 0, _, _ => .outOfFuel
  | fuel + 1, i, sleeps =>
    let err := attempts i
    if ¬(err.isNetError = true ∧ err.netTemporary = true) then
      .returned err (i + 1) sleeps
    else if maxRetries > 0 ∧ maxRetries = (i : Int) + 1 then
      .returned err (i + 1) sleeps
    else
      sendWithRetriesGo attempts maxRetries fuel (i + 1) (sleeps + 1)

/-- `Client.SendWithRetries` started in its initial state (counter 0,
no sleeps yet). -/
def SendWithRetries (attempts : Nat → SendResult) (maxRetries : Int)
    (fuel : Nat) : RunResult :=
  sendWithRetriesGo attempts maxRetries fuel 0 0

/-- Go `url.Values` restricted to the usage in this repository: every
key is bound to at most one value. -/
def Values := String → Option String

/-- `url.Values.Set`: bind `k` to `v`, overwriting any previous
binding. -/
def Values.set (data : Values) (k v : String) : Values :=
  fun x => if x = k then some v else data x

/-- The empty `url.Values` produced by `make(url.Values)`. -/
def emptyValues : Values := fun _ => none

/-- The Go statement pattern `if cond { data.Set(k, v) }`. -/
def setIf (cond : Prop) [Decidable cond] (data : Values) (k v : String) :
    Values :=
  if cond then data.set k v else data

/-- The Go statement pattern `if p != nil { data.Set(k, render(*p)) }`
for a pointer-typed optional field modelled as `Option α`. -/
def setFromPtr (o : Option α) (data : Values) (k : String)
    (render : α → String) : Values :=
  match o with
  | some a => data.set k (render a)
  | none => data

/-- `Client.makeData` (client.go lines 86 to 133): the wire form of a
message as a key/value map.  Each Go `if cond { data.Set(...) }`
statement becomes a `setIf` or `setFromPtr` step;
`strings.Join(devices, ",")` is `String.intercalate`, `strconv.Itoa`
and `strconv.FormatInt` are `toString`, and `!Timestamp.IsZero()`
followed by `Timestamp.Unix()` is the `Option Int` field. -/
def makeData (c : Client) (message : Message) : Values :=
  let data := emptyValues
  let data := data.set "token" c.ApplicationToken
  let data := data.set "user" message.User
  let data := data.set "message" message.Message
  let data := setIf (message.Devices.length ≠ 0) data "device"
    (String.intercalate "," message.Devices)
  let data := setIf (message.Title ≠ "") data "title" message.Title
  let data := setIf (message.URL ≠ "") data "url" message.URL
  let data := setIf (message.URLTitle ≠ "") data "url_title" message.URLTitle
  let data := setIf (message.Priority ≠ 0) data "priority"
    (toString message.Priority)
  let data := setIf (message.Sound ≠ "") data "sound" message.Sound
  let data := setFromPtr message.Timestamp data "timestamp" toString
  let data := setIf (message.HTML = true) data "html" "1"
  let data := setIf (message.Monospace = true) data "monospace" "1"
  if message.Priority = EmergencyPriority then
    let data := data.set "retry" (toString message.Retry)
    let data := data.set "expire" (toString message.Expire)
    setIf (message.Callback ≠ "") data "callback" message.Callback
  else data

/-- The Go `Client` of the context-based client.go variant (the one
holding `appToken` and defining glances).  Its mutex and transport
handle do not influence encoding and are not modelled. -/
structure ContextClient where
  appToken : String
deriving DecidableEq

/-- A Go `*int` value as used by `Glance`: either one of the two shared
package-level sentinels `RemoveCount = new(int)` and
`RemovePercent = new(int)`, or any other allocated pointer together
with the integer it points to.  Pointer equality against a sentinel
holds exactly for that sentinel constructor; dereferencing a sentinel
yields 0 (the value `new(int)` allocates). -/
inductive IntPtr where
  | removeCount
  | removePercent
  | heap (value : Int)
deriving DecidableEq

/-- Dereference (`*p`). -/
def IntPtr.deref : IntPtr → Int
  | .removeCount => 0
  | .removePercent => 0
  | .heap v => v

/-- Go struct `Glance` from client.go.  Pointer-typed optional fields
become `Option`; `Count` and `Percent` keep pointer identity via
`IntPtr` because `makeGlanceData` compares them against the sentinels. -/
structure Glance where
  User : String
  Device : String
  Title : Option String
  Text : Option String
  Subtext : Option String
  Count : Option IntPtr
  Percent : Option IntPtr
deriving DecidableEq

/-- `Client.makeGlanceData` (client.go lines 441 to 476).  For `Count`,
the Go code builds `count` as the empty string and only formats
`*glance.Count` when the pointer differs from `RemoveCount`; likewise
for `Percent` against `RemovePercent`.  `fmt.Sprint` of an int is
`toString`. -/
def makeGlanceData (c : ContextClient) (glance : Glance) : Values :=
  let data := emptyValues
  let data := data.set "token" c.appToken
  let data := data.set "user" glance.User
  let data := setIf (glance.Device ≠ "") data "device" glance.Device
  let data := setFromPtr glance.Title data "title" id
  let data := setFromPtr glance.Text data "text" id
  let data := setFromPtr glance.Subtext data "subtext" id
  let data := setFromPtr glance.Count data "count"
    (fun p => if p ≠ IntPtr.removeCount then toString p.deref else "")
  let data := setFromPtr glance.Percent data "percent"
    (fun p => if p ≠ IntPtr.removePercent then toString p.deref else "")
  data

/-! Pointwise evaluation lemmas for the `Values` operations.  Each
lemma mentions the evaluated map only once on the right-hand side, so
rewriting with them keeps terms linear in the number of encoder
steps. -/

theorem Values.set_apply (d : Values) (k v x : String) :
    d.set k v x = if x = k then some v else d x := rfl

theorem emptyValues_apply (x : String) : emptyValues x = none := rfl

theorem setIf_apply (cond : Prop) [Decidable cond] (d : Values)
    (k v x : String) :
    setIf cond d k v x = if x = k ∧ cond then some v else d x := by
  by_cases h : cond <;> by_cases hx : x = k <;>
    simp [setIf, Values.set, h, hx]

theorem setFromPtr_apply_ne {α : Type} (o : Option α) (d : Values)
    (k : String) (render : α → String) (x : String) (h : x ≠ k) :
    setFromPtr o d k render x = d x := by
  cases o <;> simp [setFromPtr, Values.set, h]

theorem setFromPtr_apply_none {α : Type} (d : Values) (k : String)
    (render : α → String) (x : String) :
    setFromPtr (none : Option α) d k render x = d x := by
  simp [setFromPtr]

theorem setFromPtr_apply_some {α : Type} (a : α) (d : Values)
    (k : String) (render : α → String) :
    setFromPtr (some a) d k render k = some (render a) := by
  simp [setFromPtr, Values.set]

/-! Per-key characterisations of the encoders. -/

theorem makeData_apply_retry (c : Client) (m : Message) :
    makeData c m "retry" =
      if m.Priority = EmergencyPriority then some (toString m.Retry)
      else none := by
  by_cases hp : m.Priority = EmergencyPriority <;>
    simp [makeData, hp, setIf_apply, Values.set_apply, setFromPtr_apply_ne,
      emptyValues_apply]

theorem makeData_apply_expire (c : Client) (m : Message) :
    makeData c m "expire" =
      if m.Priority = EmergencyPriority then some (toString m.Expire)
      else none := by
  by_cases hp : m.Priority = EmergencyPriority <;>
    simp [makeData, hp, setIf_apply, Values.set_apply, setFromPtr_apply_ne,
      emptyValues_apply]

theorem makeData_apply_callback (c : Client) (m : Message) :
    makeData c m "callback" =
      if m.Priority = EmergencyPriority ∧ m.Callback ≠ "" then
        some m.Callback
      else none := by
  by_cases hp : m.Priority = EmergencyPriority <;>
    by_cases hcb : m.Callback = "" <;>
    simp [makeData, hp, hcb, setIf_apply, Values.set_apply,
      setFromPtr_apply_ne, emptyValues_apply]

theorem makeData_apply_priority (c : Client) (m : Message) :
    makeData c m "priority" =
      if m.Priority ≠ 0 then some (toString m.Priority) else none := by
  by_cases hp : m.Priority = EmergencyPriority <;>
    by_cases h0 : m.Priority = 0 <;>
    simp_all [makeData, setIf_apply, Values.set_apply, setFromPtr_apply_ne,
      emptyValues_apply, EmergencyPriority]

theorem makeGlanceData_apply_count (c : ContextClient) (g : Glance) :
    makeGlanceData c g "count" =
      match g.Count with
      | some p =>
          some (if p ≠ IntPtr.removeCount then toString p.deref else "")
      | none => none := by
  cases hc : g.Count <;>
    simp [makeGlanceData, hc, setIf_apply, Values.set_apply,
      setFromPtr_apply_ne, setFromPtr_apply_none, setFromPtr_apply_some,
      emptyValues_apply]

theorem makeGlanceData_apply_percent (c : ContextClient) (g : Glance) :
    makeGlanceData c g "percent" =
      match g.Percent with
      | some p =>
          some (if p ≠ IntPtr.removePercent then toString p.deref else "")
      | none => none := by
  cases hc : g.Percent <;>
    simp [makeGlanceData, hc, setIf_apply, Values.set_apply,
      setFromPtr_apply_ne, setFromPtr_apply_none, setFromPtr_apply_some,
      emptyValues_apply]

theorem makeGlanceData_apply_title (c : ContextClient) (g : Glance) :
    makeGlanceData c g "title" = g.Title := by
  cases hc : g.Title <;>
    simp [makeGlanceData, hc, setIf_apply, Values.set_apply,
      setFromPtr_apply_ne, setFromPtr_apply_none, setFromPtr_apply_some,
      emptyValues_apply]

theorem makeGlanceData_apply_text (c : ContextClient) (g : Glance) :
    makeGlanceData c g "text" = g.Text := by
  cases hc : g.Text <;>
    simp [makeGlanceData, hc, setIf_apply, Values.set_apply,
      setFromPtr_apply_ne, setFromPtr_apply_none, setFromPtr_apply_some,
      emptyValues_apply]

theorem makeGlanceData_apply_subtext (c : ContextClient) (g : Glance) :
    makeGlanceData c g "subtext" = g.Subtext := by
  cases hc : g.Subtext <;>
    simp [makeGlanceData, hc, setIf_apply, Values.set_apply,
      setFromPtr_apply_ne, setFromPtr_apply_none, setFromPtr_apply_some,
      emptyValues_apply]

/-- C2: the wire form of a message contains the emergency-only keys
retry and expire exactly when the priority is Emergency, contains
callback exactly when the priority is Emergency and the callback is
non-empty, and contains the priority key exactly when the priority is
not 0; hence a Normal-priority message includes none of these four
keys and an Emergency-priority message always includes retry and
expire. -/
theorem makeData_emergency_and_priority_keys (c : Client) (m : Message) :
    ((makeData c m "retry").isSome = true ↔ m.Priority = EmergencyPriority) ∧
    ((makeData c m "expire").isSome = true ↔ m.Priority = EmergencyPriority) ∧
    ((makeData c m "callback").isSome = true ↔
      (m.Priority = EmergencyPriority ∧ m.Callback ≠ "")) ∧
    ((makeData c m "priority").isSome = true ↔ m.Priority ≠ 0) ∧
    (makeData c {m with Priority := NormalPriority} "priority" = none ∧
      makeData c {m with Priority := NormalPriority} "retry" = none ∧
      makeData c {m with Priority := NormalPriority} "expire" = none ∧
      makeData c {m with Priority := NormalPriority} "callback" = none) ∧
    ((makeData c {m with Priority := EmergencyPriority} "retry").isSome
        = true ∧
      (makeData c {m with Priority := EmergencyPriority} "expire").isSome
        = true) := by
  refine ⟨?_, ?_, ?_, ?_, ⟨?_, ?_, ?_, ?_⟩, ?_, ?_⟩ <;>
    simp [makeData_apply_retry, makeData_apply_expire,
      makeData_apply_callback, makeData_apply_priority, NormalPriority,
      EmergencyPriority]

/-- C3: each optional glance field is tri-state: an unset field is
absent from the wire form; a field in removal state is present with
the empty value; a set field is present with its rendered value (value
5 renders as the string 5; for the string fields the set value is
emitted as is, so the empty string plays the removal state). -/
theorem makeGlanceData_tristate (c : ContextClient) (g : Glance) :
    (makeGlanceData c {g with Count := none} "count" = none) ∧
    (makeGlanceData c {g with Count := some IntPtr.removeCount} "count"
      = some "") ∧
    (makeGlanceData c {g with Count := some (IntPtr.heap 5)} "count"
      = some "5") ∧
    (makeGlanceData c {g with Percent := none} "percent" = none) ∧
    (makeGlanceData c {g with Percent := some IntPtr.removePercent} "percent"
      = some "") ∧
    (makeGlanceData c {g with Percent := some (IntPtr.heap 5)} "percent"
      = some "5") ∧
    (makeGlanceData c {g with Title := none} "title" = none) ∧
    (∀ t : String, makeGlanceData c {g with Title := some t} "title"
      = some t) ∧
    (makeGlanceData c {g with Text := none} "text" = none) ∧
    (∀ t : String, makeGlanceData c {g with Text := some t} "text"
      = some t) ∧
    (makeGlanceData c {g with Subtext := none} "subtext" = none) ∧
    (∀ t : String, makeGlanceData c {g with Subtext := some t} "subtext"
      = some t) := by
  refine ⟨?_, ?_, ?_, ?_, ?_, ?_, ?_, ?_, ?_, ?_, ?_, ?_⟩ <;>
    simp [makeGlanceData_apply_count, makeGlanceData_apply_percent,
      makeGlanceData_apply_title, makeGlanceData_apply_text,
      makeGlanceData_apply_subtext, IntPtr.deref] <;>
    decide

/-- C9: the count key is emitted with the empty value exactly for the
pointer that is identical to the RemoveCount sentinel; every other
non-nil pointer is emitted as the decimal string of the integer it
points to, so a distinct pointer to 0 (the very value the sentinel
points to) yields count 0, not removal; likewise for percent and
RemovePercent. -/
theorem makeGlanceData_removal_by_pointer_identity (c : ContextClient)
    (g : Glance) (p : IntPtr) :
    (makeGlanceData c {g with Count := some IntPtr.removeCount} "count"
      = some "") ∧
    (p ≠ IntPtr.removeCount →
      makeGlanceData c {g with Count := some p} "count"
        = some (toString p.deref)) ∧
    (makeGlanceData c {g with Count := some (IntPtr.heap 0)} "count"
      = some "0") ∧
    (makeGlanceData c {g with Percent := some IntPtr.removePercent} "percent"
      = some "") ∧
    (p ≠ IntPtr.removePercent →
      makeGlanceData c {g with Percent := some p} "percent"
        = some (toString p.deref)) ∧
    (makeGlanceData c {g with Percent := some (IntPtr.heap 0)} "percent"
      = some "0") := by
  refine ⟨?_, fun hp => ?_, ?_, ?_, fun hp => ?_, ?_⟩
  · simp [makeGlanceData_apply_count]
  · simp [makeGlanceData_apply_count, hp]
  · simp [makeGlanceData_apply_count, IntPtr.deref]; decide
  · simp [makeGlanceData_apply_percent]
  · simp [makeGlanceData_apply_percent, hp]
  · simp [makeGlanceData_apply_percent, IntPtr.deref]; decide

/-- C1: the classification done by Send agrees everywhere with the
algorithm of the specification (Success exactly for status code 200
with parsed status field present and equal to 1, otherwise Fatal
exactly for a 4xx status code or a parsed status field present and
equal to 0, otherwise Temporary; a failed JSON parse only makes the
status field absent), and in particular status 200 with parsed status
1 is Success, status 400 is Fatal for every body, status 500 with
parsed status 1 is Temporary, and status 200 with parsed status 0 is
Fatal. -/
theorem classify_follows_spec :
    (∀ (s : Int) (ps : Option Rat) (b : String),
      classify s ps b = classifySpec s ps b) ∧
    classify 200 (some 1) "ok" = .success ∧
    (∀ (ps : Option Rat) (b : String), classify 400 ps b = .fatal ⟨400, b⟩) ∧
    classify 500 (some 1) "e" = .temporary ⟨500, "e"⟩ ∧
    classify 200 (some 0) "r" = .fatal ⟨200, "r"⟩ := by
  have key : ∀ (s : Int) (ps : Option Rat) (b : String),
      classify s ps b = classifySpec s ps b := by
    intro s ps b
    rcases ps with _ | x <;>
      simp only [classify, classifySpec, Option.isSome, Option.getD,
        Option.some.injEq] <;>
      split_ifs <;> simp_all
  refine ⟨key, ?_, ?_, ?_, ?_⟩
  · rw [key]; decide
  · intro ps b
    rw [key]
    have h4 : Int.tdiv 400 100 = 4 := by decide
    rcases ps with _ | x <;> simp [classifySpec, h4]
  · rw [key]; decide
  · rw [key]; decide

/-- C7: a failure to construct the HTTP request makes Send return a
fatal error with status code -1, before anything is transmitted; a
failure to transmit the constructed request (or to read the response
body) makes Send return a temporary error, which the retry loop treats
as retryable, while the construction failure is not retryable. -/
theorem send_construction_fatal_transmission_temporary :
    (∀ msg, Send (.newRequestFailure msg) = .fatal ⟨-1, msg⟩) ∧
    (∀ msg, Send (.doFailure msg) = .temporary ⟨-1, msg⟩) ∧
    (∀ sc msg, Send (.readFailure sc msg) = .temporary ⟨sc, msg⟩) ∧
    (∀ msg, (Send (.doFailure msg)).isNetError = true ∧
      (Send (.doFailure msg)).netTemporary = true) ∧
    (∀ msg, (Send (.newRequestFailure msg)).netTemporary = false) :=
  ⟨fun _ => rfl, fun _ => rfl, fun _ _ => rfl, fun _ => ⟨rfl, rfl⟩,
    fun _ => rfl⟩

/-- Helper: when every attempt yields a temporary error and the retry
bound is positive and K attempts away from the loop counter, the loop
makes exactly K more attempts, K - 1 more sleeps, and returns the last
attempt. -/
theorem sendWithRetriesGo_all_temporary (attempts : Nat → SendResult)
    (htemp : ∀ n, ∃ e, attempts n = .temporary e) :
    ∀ (K i sleeps fuel : Nat) (maxRetries : Int), 0 < K →
      maxRetries = (i : Int) + K → K ≤ fuel →
      sendWithRetriesGo attempts maxRetries fuel i sleeps
        = .returned (attempts (i + K - 1)) (i + K) (sleeps + (K - 1)) := by
  intro K
  induction K with
  | zero => intro i sleeps fuel mr h0; exact absurd h0 (by omega)
  | succ K ih =>
    intro i sleeps fuel mr _ hsum hfuel
    obtain ⟨f, rfl⟩ : ∃ f, fuel = f + 1 := ⟨fuel - 1, by omega⟩
    obtain ⟨e, he⟩ := htemp i
    rcases Nat.eq_zero_or_pos K with hK | hK
    · subst hK
      have hret : mr > 0 ∧ mr = (i : Int) + 1 := by
        constructor <;> omega
      simp [sendWithRetriesGo, he, SendResult.isNetError,
        SendResult.netTemporary, TemporaryError.Temporary, hret]
    · have hnot : ¬(mr > 0 ∧ mr = (i : Int) + 1) := by omega
      rw [show i + (K + 1) - 1 = (i + 1) + K - 1 by omega,
        show i + (K + 1) = (i + 1) + K by omega,
        show sleeps + (K + 1 - 1) = (sleeps + 1) + (K - 1) by omega]
      rw [show sendWithRetriesGo attempts mr (f + 1) i sleeps
          = sendWithRetriesGo attempts mr f (i + 1) (sleeps + 1) by
        simp [sendWithRetriesGo, he, SendResult.isNetError,
          SendResult.netTemporary, TemporaryError.Temporary, hnot]]
      exact ih (i + 1) (sleeps + 1) f mr hK (by omega) (by omega)

/-- C4: when every attempt yields a temporary error, the retry loop
with bound 3 makes exactly 3 attempts and 2 sleeps and returns the
last temporary error; in general, with a positive bound N it makes
exactly N attempts and N - 1 sleeps and returns the last temporary
error. -/
theorem sendWithRetries_exhausts_on_temporary (attempts : Nat → SendResult)
    (htemp : ∀ n, ∃ e, attempts n = .temporary e) :
    (∀ fuel, 3 ≤ fuel →
      SendWithRetries attempts 3 fuel = .returned (attempts 2) 3 2) ∧
    (∀ (N : Nat), 0 < N → ∀ fuel, N ≤ fuel →
      SendWithRetries attempts (N : Int) fuel
        = .returned (attempts (N - 1)) N (N - 1)) := by
  have main : ∀ (N : Nat), 0 < N → ∀ fuel, N ≤ fuel →
      SendWithRetries attempts (N : Int) fuel
        = .returned (attempts (N - 1)) N (N - 1) := by
    intro N hN fuel hfuel
    have h := sendWithRetriesGo_all_temporary attempts htemp N 0 0 fuel
      (N : Int) hN (by omega) hfuel
    simpa [SendWithRetries] using h
  exact ⟨fun fuel h => by simpa using main 3 (by omega) fuel h, main⟩

/-- Witness for C4: three attempts that all fail with status 500. -/
theorem sendWithRetries_exhausts_witness :
    (∀ n, ∃ e, (fun _ : Nat => SendResult.temporary ⟨500, "boom"⟩) n
      = SendResult.temporary e) ∧
    SendWithRetries (fun _ => SendResult.temporary ⟨500, "boom"⟩) 3 3
      = .returned (.temporary ⟨500, "boom"⟩) 3 2 :=
  ⟨fun _ => ⟨⟨500, "boom"⟩, rfl⟩, by
    have h := (sendWithRetries_exhausts_on_temporary
      (fun _ => SendResult.temporary ⟨500, "boom"⟩)
      (fun _ => ⟨⟨500, "boom"⟩, rfl⟩)).1 3 (by omega)
    simpa using h⟩

/-- C5: an attempt that yields success or a fatal error makes the
retry loop return that very outcome at once, with no further attempt
and no sleep. -/
theorem sendWithRetries_stops_on_success_or_fatal
    (attempts : Nat → SendResult) (maxRetries : Int) (fuel i sleeps : Nat)
    (h : attempts i = .success ∨ ∃ e, attempts i = .fatal e) :
    sendWithRetriesGo attempts maxRetries (fuel + 1) i sleeps
      = .returned (attempts i) (i + 1) sleeps := by
  rcases h with h | ⟨e, h⟩ <;>
    simp [sendWithRetriesGo, h, SendResult.isNetError,
      SendResult.netTemporary, FatalError.Temporary]

/-- Witness for C5: a first attempt that succeeds. -/
theorem sendWithRetries_stops_witness :
    ((fun _ : Nat => SendResult.success) 0 = SendResult.success) ∧
    sendWithRetriesGo (fun _ => SendResult.success) 1 1 0 0
      = .returned .success 1 0 :=
  ⟨rfl, sendWithRetries_stops_on_success_or_fatal
    (fun _ => SendResult.success) 1 0 0 0 (Or.inl rfl)⟩

/-- C6: with a non-positive retry bound (unlimited retries), attempts
that fail temporarily twice and then succeed make the loop return
success after exactly 3 attempts and 2 sleeps; moreover with a
non-positive bound the loop never gives up, that is, it never returns
a temporary error. -/
theorem sendWithRetries_unlimited_success_after_two_temporaries
    (maxRetries : Int) (hmr : maxRetries ≤ 0) (attempts : Nat → SendResult)
    (h0 : ∃ e, attempts 0 = .temporary e)
    (h1 : ∃ e, attempts 1 = .temporary e)
    (h2 : attempts 2 = .success) :
    (∀ fuel, 3 ≤ fuel →
      SendWithRetries attempts maxRetries fuel = .returned .success 3 2) ∧
    (∀ (att : Nat → SendResult) (fuel i sleeps : Nat) (err : SendResult)
        (n s : Nat),
      sendWithRetriesGo att maxRetries fuel i sleeps = .returned err n s →
      ∀ e, err ≠ .temporary e) := by
  have hng : ¬maxRetries > 0 := by omega
  constructor
  · intro fuel hfuel
    obtain ⟨f, rfl⟩ : ∃ f, fuel = f + 3 := ⟨fuel - 3, by omega⟩
    obtain ⟨e0, he0⟩ := h0
    obtain ⟨e1, he1⟩ := h1
    simp [SendWithRetries, sendWithRetriesGo, he0, he1, h2, hng,
      SendResult.isNetError, SendResult.netTemporary,
      TemporaryError.Temporary]
  · intro att fuel
    induction fuel with
    | zero =>
      intro i sleeps err n s h
      simp [sendWithRetriesGo] at h
    | succ f ih =>
      intro i sleeps err n s h
      cases hai : att i with
      | success =>
        simp [sendWithRetriesGo, hai, SendResult.isNetError,
          SendResult.netTemporary] at h
        rcases h with ⟨rfl, -, -⟩
        intro e hcontra
        exact SendResult.noConfusion hcontra
      | fatal ef =>
        simp [sendWithRetriesGo, hai, SendResult.isNetError,
          SendResult.netTemporary, FatalError.Temporary] at h
        rcases h with ⟨rfl, -, -⟩
        intro e hcontra
        exact SendResult.noConfusion hcontra
      | temporary et =>
        simp [sendWithRetriesGo, hai, SendResult.isNetError,
          SendResult.netTemporary, TemporaryError.Temporary, hng] at h
        exact ih (i + 1) (sleeps + 1) err n s h

/-- Witness for C6: unlimited retries, two temporary failures, then
success. -/
theorem sendWithRetries_unlimited_witness :
    ((0 : Int) ≤ 0) ∧
    SendWithRetries
      (fun n => if n < 2 then SendResult.temporary ⟨500, "x"⟩
        else SendResult.success) 0 3
      = .returned .success 3 2 :=
  ⟨le_refl 0, by
    have h := (sendWithRetries_unlimited_success_after_two_temporaries
      0 (le_refl 0)
      (fun n => if n < 2 then SendResult.temporary ⟨500, "x"⟩
        else SendResult.success)
      ⟨⟨500, "x"⟩, rfl⟩ ⟨⟨500, "x"⟩, rfl⟩ rfl).1 3 (by omega)
    exact h⟩

/-- C10: every temporary error answers Temporary with true and Timeout
with false, every fatal error answers both with false; the retry
condition of the loop (the error is a net.Error and is temporary)
holds exactly for temporary errors, so the loop moves on to another
attempt exactly on a temporary error that has not exhausted the bound,
and returns every other outcome at once. -/
theorem temporary_fatal_methods_and_retry_rule :
    (∀ e : TemporaryError, e.Temporary = true ∧ e.Timeout = false) ∧
    (∀ e : FatalError, e.Temporary = false ∧ e.Timeout = false) ∧
    (∀ r : SendResult,
      (r.isNetError = true ∧ r.netTemporary = true) ↔
        ∃ e, r = .temporary e) ∧
    (∀ (attempts : Nat → SendResult) (maxRetries : Int)
        (fuel i sleeps : Nat),
      (∀ e, attempts i ≠ .temporary e) →
      sendWithRetriesGo attempts maxRetries (fuel + 1) i sleeps
        = .returned (attempts i) (i + 1) sleeps) ∧
    (∀ (attempts : Nat → SendResult) (maxRetries : Int)
        (fuel i sleeps : Nat) (e : TemporaryError),
      attempts i = .temporary e →
      ¬(maxRetries > 0 ∧ maxRetries = (i : Int) + 1) →
      sendWithRetriesGo attempts maxRetries (fuel + 1) i sleeps
        = sendWithRetriesGo attempts maxRetries fuel (i + 1) (sleeps + 1)) := by
  refine ⟨fun e => ⟨rfl, rfl⟩, fun e => ⟨rfl, rfl⟩, ?_, ?_, ?_⟩
  · intro r
    cases r with
    | success => simp [SendResult.isNetError, SendResult.netTemporary]
    | fatal e =>
      simp [SendResult.isNetError, SendResult.netTemporary,
        FatalError.Temporary]
    | temporary e =>
      simp [SendResult.isNetError, SendResult.netTemporary,
        TemporaryError.Temporary]
  · intro attempts maxRetries fuel i sleeps hna
    cases hai : attempts i with
    | success =>
      simp [sendWithRetriesGo, hai, SendResult.isNetError,
        SendResult.netTemporary]
    | fatal ef =>
      simp [sendWithRetriesGo, hai, SendResult.isNetError,
        SendResult.netTemporary, FatalError.Temporary]
    | temporary et => exact absurd hai (hna et)
  · intro attempts maxRetries fuel i sleeps e hai hng
    simp [sendWithRetriesGo, hai, SendResult.isNetError,
      SendResult.netTemporary, TemporaryError.Temporary, hng]

/-- Witness for C10: a fatal first attempt is returned at once. -/
theorem temporary_fatal_methods_witness :
    (∀ e, (fun _ : Nat => SendResult.fatal ⟨400, "bad"⟩) 0
      ≠ SendResult.temporary e) ∧
    sendWithRetriesGo (fun _ => SendResult.fatal ⟨400, "bad"⟩) 1 1 0 0
      = .returned (.fatal ⟨400, "bad"⟩) 1 0 :=
  ⟨fun e h => SendResult.noConfusion h,
    temporary_fatal_methods_and_retry_rule.2.2.2.1
      (fun _ => SendResult.fatal ⟨400, "bad"⟩) 1 0 0 0
      (fun e h => SendResult.noConfusion h)⟩

/-- Witness for C9 at a concrete heap pointer to 7. -/
theorem makeGlanceData_removal_witness :
    IntPtr.heap 7 ≠ IntPtr.removeCount ∧
    makeGlanceData ⟨"app"⟩
      {(⟨"u", "", none, none, none, none, none⟩ : Glance) with
        Count := some (IntPtr.heap 7)} "count" = some "7" :=
  ⟨by decide,
    (makeGlanceData_removal_by_pointer_identity ⟨"app"⟩
      ⟨"u", "", none, none, none, none, none⟩ (IntPtr.heap 7)).2.1
      (by decide)⟩
